import Mathlib

/-!
Shallow embedding of the benchmark script in `app.py`: two provider
adapters (OpenAI, Gemini) and a sequential `BenchmarkRunner` that invokes
each adapter once with the same prompt and isolates failures per adapter.

Vendor calls are external and non-deterministic, so each concrete
`generate` is embedded as a function of the vendor response it received
and the elapsed wall-clock time it measured; the runner is embedded over
abstract adapters whose `generate` either returns a `GenerationResult`
(the returned dict) or raises (modelled as `Except.error` carrying the
string representation of the exception).
-/

/-- Rounding a rational to the nearest integer with ties to even,
the behaviour of Python's builtin `round`. -/
def roundHalfEven (q : ℚ) : ℤ :=
  if q - ⌊q⌋ < 1/2 then ⌊q⌋
  else if q - ⌊q⌋ > 1/2 then ⌊q⌋ + 1
  else if ⌊q⌋ % 2 = 0 then ⌊q⌋ else ⌊q⌋ + 1

/-- `round(x, 2)` from the source: round to two decimal digits. -/
def round2 (q : ℚ) : ℚ := (roundHalfEven (q * 100) : ℚ) / 100

/-- Scan of a character list counting maximal runs of non-whitespace
characters; the boolean records whether the scan is inside such a run. -/
def pyWordCountAux : List Char → Bool → ℕ
  | [], _ => 0
  | c :: cs, inWord =>
      if c.isWhitespace then pyWordCountAux cs false
      else (if inWord then 0 else 1) + pyWordCountAux cs true

/-- `len(s.split())` in Python: the number of maximal whitespace-separated
words of `s`. -/
def pyWordCount (s : String) : ℕ := pyWordCountAux s.data false

/-- The success dict returned by `generate`
(`{"provider": ..., "text": ..., "latency": ..., "tokens": ...}`). -/
structure GenerationResult where
  provider : String
  text : String
  latency : ℚ
  tokens : ℕ
deriving DecidableEq

/-- The `usage` object of an OpenAI response (`response.usage`). -/
structure OpenAIUsage where
  total_tokens : ℕ
deriving DecidableEq

/-- The parts of an OpenAI response read by `OpenAIAdapter.generate`:
`output_text` and the optional `usage` object. -/
structure OpenAIResponse where
  output_text : String
  usage : Option OpenAIUsage
deriving DecidableEq

/-- `self.name` set in `OpenAIAdapter.__init__`. -/
def openAIName : String := "OpenAI GPT-4.1-mini"

/-- `OpenAIAdapter.generate`, as a function of the vendor response and the
measured elapsed time: returns provider name, `response.output_text`,
`round(latency, 2)`, and `response.usage.total_tokens if response.usage
else 0`. -/
def OpenAIAdapter.generate (response : OpenAIResponse) (elapsed : ℚ) :
    GenerationResult :=
  { provider := openAIName
    text := response.output_text
    latency := round2 elapsed
    tokens := match response.usage with
      | some u => u.total_tokens
      | none => 0 }

/-- The `usage_metadata` object of a Gemini response. -/
structure GeminiUsageMetadata where
  total_token_count : ℕ
deriving DecidableEq

/-- The parts of a Gemini response read by `GeminiAdapter.generate`:
`text` and the optional `usage_metadata` object. -/
structure GeminiResponse where
  text : String
  usage_metadata : Option GeminiUsageMetadata
deriving DecidableEq

/-- `self.name` set in `GeminiAdapter.__init__`. -/
def geminiName : String := "Google Gemini 1.5 Flash"

/-- `GeminiAdapter.generate`, as a function of the vendor response and the
measured elapsed time: `tokens` is `usage_metadata.total_token_count` when
present, else `len(response.text.split())`. -/
def GeminiAdapter.generate (response : GeminiResponse) (elapsed : ℚ) :
    GenerationResult :=
  { provider := geminiName
    text := response.text
    latency := round2 elapsed
    tokens := match response.usage_metadata with
      | some m => m.total_token_count
      | none => pyWordCount response.text }

/-- An abstract `ModelAdapter`: a display name and a `generate` operation
that either returns a result dict or raises (its exception rendered by
`str(e)` as the carried string). -/
structure Adapter where
  name : String
  generate : String → Except String GenerationResult

/-- One element of the list built by `BenchmarkRunner.run`: either the
dict returned by `generate`, or the error dict
`{"provider": adapter.name, "error": str(e)}`. -/
inductive RunResult where
  | ok : GenerationResult → RunResult
  | err : (provider : String) → (error : String) → RunResult
deriving DecidableEq

/-- `"error" in r`: the check `main` uses to distinguish the two result
shapes. -/
def RunResult.hasError : RunResult → Bool
  | RunResult.ok _ => false
  | RunResult.err _ _ => true

/-- The body of the `for adapter in self.adapters` loop: try
`adapter.generate(prompt)`, and on an exception build the error dict. -/
def BenchmarkRunner.step (adapter : Adapter) (prompt : String) : RunResult :=
  match adapter.generate prompt with
  | Except.ok result => RunResult.ok result
  | Except.error e => RunResult.err adapter.name e

/-- The loop of `BenchmarkRunner.run`, threading the `results` list that
each iteration appends to. -/
def BenchmarkRunner.runAux (prompt : String) :
    List Adapter → List RunResult → List RunResult
  | [], results => results
  | adapter :: rest, results =>
      BenchmarkRunner.runAux prompt rest
        (results ++ [BenchmarkRunner.step adapter prompt])

/-- `BenchmarkRunner.run`: start from the empty `results` list and run the
loop over the held adapters. -/
def BenchmarkRunner.run (adapters : List Adapter) (prompt : String) :
    List RunResult :=
  BenchmarkRunner.runAux prompt adapters []

/-- The same loop instrumented with a call log: each `adapter.generate(prompt)`
invocation is recorded as the pair (adapter name, prompt it was passed). -/
def BenchmarkRunner.runLoggedAux (prompt : String) :
    List Adapter → List RunResult × List (String × String) →
      List RunResult × List (String × String)
  | [], state => state
  | adapter :: rest, (results, calls) =>
      BenchmarkRunner.runLoggedAux prompt rest
        (results ++ [BenchmarkRunner.step adapter prompt],
         calls ++ [(adapter.name, prompt)])

/-- Instrumented `run`: the results together with the log of `generate`
calls made, in order. -/
def BenchmarkRunner.runLogged (adapters : List Adapter) (prompt : String) :
    List RunResult × List (String × String) :=
  BenchmarkRunner.runLoggedAux prompt adapters ([], [])

theorem BenchmarkRunner.runAux_eq (prompt : String) (adapters : List Adapter)
    (acc : List RunResult) :
    BenchmarkRunner.runAux prompt adapters acc =
      acc ++ adapters.map (fun a => BenchmarkRunner.step a prompt) := by
  induction adapters generalizing acc with
  | nil => simp [BenchmarkRunner.runAux]
  | cons a rest ih => simp [BenchmarkRunner.runAux, ih]

theorem BenchmarkRunner.run_eq_map (adapters : List Adapter)
    (prompt : String) :
    BenchmarkRunner.run adapters prompt =
      adapters.map (fun a => BenchmarkRunner.step a prompt) := by
  simp [BenchmarkRunner.run, BenchmarkRunner.runAux_eq]

theorem BenchmarkRunner.run_length (adapters : List Adapter)
    (prompt : String) :
    (BenchmarkRunner.run adapters prompt).length = adapters.length := by
  simp [BenchmarkRunner.run_eq_map]

theorem roundHalfEven_nonneg (q : ℚ) (h : 0 ≤ q) : 0 ≤ roundHalfEven q := by
  have h0 : (0 : ℤ) ≤ ⌊q⌋ := Int.floor_nonneg.mpr h
  unfold roundHalfEven
  split_ifs <;> omega

theorem abs_roundHalfEven_sub (q : ℚ) :
    |(roundHalfEven q : ℚ) - q| ≤ 1/2 := by
  have hle : (⌊q⌋ : ℚ) ≤ q := Int.floor_le q
  have hlt : q < ⌊q⌋ + 1 := Int.lt_floor_add_one q
  unfold roundHalfEven
  split_ifs with h1 h2 h3 <;> push_cast <;> rw [abs_le] <;>
    constructor <;> linarith

theorem round2_nonneg (q : ℚ) (h : 0 ≤ q) : 0 ≤ round2 q := by
  have h1 : 0 ≤ roundHalfEven (q * 100) :=
    roundHalfEven_nonneg _ (by positivity)
  unfold round2
  have h2 : (0 : ℚ) ≤ (roundHalfEven (q * 100) : ℚ) := by exact_mod_cast h1
  positivity

theorem abs_round2_sub (q : ℚ) : |round2 q - q| ≤ 1/200 := by
  have h := abs_roundHalfEven_sub (q * 100)
  unfold round2
  have heq : (roundHalfEven (q * 100) : ℚ) / 100 - q =
      ((roundHalfEven (q * 100) : ℚ) - q * 100) / 100 := by ring
  rw [heq, abs_div, abs_of_pos (by norm_num : (0:ℚ) < 100)]
  linarith

/-- A fixed successful result, for concrete instantiations. -/
def mockSuccess : GenerationResult :=
  { provider := "Mock", text := "hello world", latency := 1/4, tokens := 2 }

/-- An adapter whose `generate` always returns the fixed result. -/
def mockOkAdapter : Adapter :=
  { name := "Mock", generate := fun _ => Except.ok mockSuccess }

/-- An adapter whose `generate` always raises with message "boom". -/
def mockErrAdapter : Adapter :=
  { name := "Broken", generate := fun _ => Except.error "boom" }

/-- An adapter whose `generate` raises an exception with empty `str(e)`,
as Python's bare `raise Exception()` does. -/
def emptyMsgAdapter : Adapter :=
  { name := "P", generate := fun _ => Except.error "" }

/-- A concrete OpenAI vendor response with usage metadata present. -/
def mockVendorResponse : OpenAIResponse :=
  { output_text := "hi there", usage := some { total_tokens := 5 } }

/-- An adapter that behaves like `OpenAIAdapter` did on one concrete
vendor response measured at 1.5 seconds. -/
def mockOpenAIAdapter : Adapter :=
  { name := openAIName
    generate := fun _ =>
      Except.ok (OpenAIAdapter.generate mockVendorResponse (3/2)) }

theorem BenchmarkRunner.runLoggedAux_eq (prompt : String)
    (adapters : List Adapter) (rs : List RunResult)
    (cs : List (String × String)) :
    BenchmarkRunner.runLoggedAux prompt adapters (rs, cs) =
      (rs ++ adapters.map (fun a => BenchmarkRunner.step a prompt),
       cs ++ adapters.map (fun a => (a.name, prompt))) := by
  induction adapters generalizing rs cs with
  | nil => simp [BenchmarkRunner.runLoggedAux]
  | cons a rest ih => simp [BenchmarkRunner.runLoggedAux, ih]

/-- C1: for every ordered sequence of adapters and every prompt, `run`
returns exactly as many results as adapters, and the result at position
`i` is produced from the adapter at position `i` (one loop iteration on
that adapter with that prompt). -/
theorem C1_run_count_and_order (adapters : List Adapter) (prompt : String) :
    (BenchmarkRunner.run adapters prompt).length = adapters.length ∧
    ∀ (i : ℕ) (hi : i < adapters.length)
      (hi2 : i < (BenchmarkRunner.run adapters prompt).length),
      (BenchmarkRunner.run adapters prompt).get ⟨i, hi2⟩ =
        BenchmarkRunner.step (adapters.get ⟨i, hi⟩) prompt := by
  refine ⟨BenchmarkRunner.run_length adapters prompt, ?_⟩
  intro i hi hi2
  simp [BenchmarkRunner.run_eq_map, List.get_eq_getElem]

/-- Witness for C1 at a concrete two-adapter sequence. -/
theorem C1_witness :
    (BenchmarkRunner.run [mockOkAdapter, mockErrAdapter] "hi").length = 2 ∧
    (BenchmarkRunner.run [mockOkAdapter, mockErrAdapter] "hi").get
        ⟨1, by decide⟩ = BenchmarkRunner.step mockErrAdapter "hi" := by
  have h := C1_run_count_and_order [mockOkAdapter, mockErrAdapter] "hi"
  exact ⟨h.1, h.2 1 (by decide) (by decide)⟩

/-- C2: if the adapter at position `i` raises with message `e`, the result
at position `i` is the error dict carrying that adapter's display name and
`e`, and every position's result is still exactly the outcome of running
that position's adapter on the prompt, unaffected by the failure. -/
theorem C2_failure_isolated (adapters : List Adapter) (prompt : String)
    (i : ℕ) (hi : i < adapters.length) (e : String)
    (hfail : (adapters.get ⟨i, hi⟩).generate prompt = Except.error e)
    (hi2 : i < (BenchmarkRunner.run adapters prompt).length) :
    (BenchmarkRunner.run adapters prompt).get ⟨i, hi2⟩ =
      RunResult.err (adapters.get ⟨i, hi⟩).name e ∧
    ∀ (j : ℕ) (hj : j < adapters.length)
      (hj2 : j < (BenchmarkRunner.run adapters prompt).length),
      (BenchmarkRunner.run adapters prompt).get ⟨j, hj2⟩ =
        BenchmarkRunner.step (adapters.get ⟨j, hj⟩) prompt := by
  constructor
  · simp only [List.get_eq_getElem] at hfail
    simp [BenchmarkRunner.run_eq_map, List.get_eq_getElem,
      BenchmarkRunner.step, hfail]
  · intro j hj hj2
    simp [BenchmarkRunner.run_eq_map, List.get_eq_getElem]

/-- Witness for C2: first adapter raises "boom", second still succeeds. -/
theorem C2_witness :
    (BenchmarkRunner.run [mockErrAdapter, mockOkAdapter] "p").get
        ⟨0, by decide⟩ = RunResult.err "Broken" "boom" ∧
    (BenchmarkRunner.run [mockErrAdapter, mockOkAdapter] "p").get
        ⟨1, by decide⟩ = RunResult.ok mockSuccess := by
  have h := C2_failure_isolated [mockErrAdapter, mockOkAdapter] "p" 0
    (by decide) "boom" rfl (by decide)
  exact ⟨h.1, h.2 1 (by decide) (by decide)⟩

/-- C3 counterexample: the OpenAI adapter with usage metadata absent
returns token count 0, not the word count of the response text. -/
theorem C3_counterexample :
    ¬ ((OpenAIAdapter.generate
          { output_text := "hello world", usage := none } 0).tokens
        = pyWordCount "hello world") := by decide

/-- C3 amended: with no token-usage metadata, the Gemini adapter's token
count is the whitespace word count of the returned text, while the OpenAI
adapter's token count is 0. -/
theorem C3_amended_token_fallback (text gtext : String) (e1 e2 : ℚ) :
    (GeminiAdapter.generate
        { text := gtext, usage_metadata := none } e2).tokens
      = pyWordCount gtext ∧
    (OpenAIAdapter.generate
        { output_text := text, usage := none } e1).tokens = 0 :=
  ⟨rfl, rfl⟩

/-- C4: every run yields one result per adapter, in order, and the result
at position `i` carries the error field exactly when that adapter's
`generate` raised, and is a success dict exactly when it returned — the
two shapes are mutually exclusive. -/
theorem C4_exclusive_outcomes (adapters : List Adapter) (prompt : String) :
    (BenchmarkRunner.run adapters prompt).length = adapters.length ∧
    ∀ (i : ℕ) (hi : i < adapters.length)
      (hi2 : i < (BenchmarkRunner.run adapters prompt).length),
      (((BenchmarkRunner.run adapters prompt).get ⟨i, hi2⟩).hasError = true
        ↔ ∃ e, (adapters.get ⟨i, hi⟩).generate prompt = Except.error e) ∧
      (((BenchmarkRunner.run adapters prompt).get ⟨i, hi2⟩).hasError = false
        ↔ ∃ g, (adapters.get ⟨i, hi⟩).generate prompt = Except.ok g) := by
  refine ⟨BenchmarkRunner.run_length adapters prompt, ?_⟩
  intro i hi hi2
  have hstep : (BenchmarkRunner.run adapters prompt).get ⟨i, hi2⟩ =
      BenchmarkRunner.step (adapters.get ⟨i, hi⟩) prompt := by
    simp [BenchmarkRunner.run_eq_map, List.get_eq_getElem]
  rw [hstep]
  unfold BenchmarkRunner.step
  cases hgen : (adapters.get ⟨i, hi⟩).generate prompt with
  | ok g => simp [RunResult.hasError]
  | error e => simp [RunResult.hasError]

/-- Witness for C4 on a success adapter followed by a failing adapter. -/
theorem C4_witness :
    (BenchmarkRunner.run [mockOkAdapter, mockErrAdapter] "p").length = 2 ∧
    (((BenchmarkRunner.run [mockOkAdapter, mockErrAdapter] "p").get
        ⟨0, by decide⟩).hasError = false ↔
      ∃ g, mockOkAdapter.generate "p" = Except.ok g) := by
  have h := C4_exclusive_outcomes [mockOkAdapter, mockErrAdapter] "p"
  exact ⟨h.1, (h.2 0 (by decide) (by decide)).2⟩

/-- C5: an adapter whose `generate` always returns one fixed result
without raising has that exact value, unchanged, at its position in the
run's results. -/
theorem C5_success_passthrough (adapters : List Adapter) (prompt : String)
    (i : ℕ) (hi : i < adapters.length) (r : GenerationResult)
    (hfix : ∀ p, (adapters.get ⟨i, hi⟩).generate p = Except.ok r)
    (hi2 : i < (BenchmarkRunner.run adapters prompt).length) :
    (BenchmarkRunner.run adapters prompt).get ⟨i, hi2⟩ = RunResult.ok r := by
  have hok := hfix prompt
  simp only [List.get_eq_getElem] at hok
  simp [BenchmarkRunner.run_eq_map, List.get_eq_getElem,
    BenchmarkRunner.step, hok]

/-- Witness for C5 on the fixed-result mock adapter. -/
theorem C5_witness :
    (BenchmarkRunner.run [mockOkAdapter] "anything").get ⟨0, by decide⟩
      = RunResult.ok mockSuccess :=
  C5_success_passthrough [mockOkAdapter] "anything" 0 (by decide)
    mockSuccess (fun _ => rfl) (by decide)

/-- C6: if the adapter at position `i` succeeds and its result came from
one of the two concrete `generate` implementations on a nonnegative
elapsed time, the result at position `i` is that `GenerationResult`, with
token count at least 0 and latency at least 0. -/
theorem C6_success_metrics (adapters : List Adapter) (prompt : String)
    (i : ℕ) (hi : i < adapters.length) (g : GenerationResult)
    (hok : (adapters.get ⟨i, hi⟩).generate prompt = Except.ok g)
    (hconc :
      (∃ resp elapsed, 0 ≤ elapsed ∧ g = OpenAIAdapter.generate resp elapsed)
      ∨ (∃ resp elapsed, 0 ≤ elapsed ∧
          g = GeminiAdapter.generate resp elapsed))
    (hi2 : i < (BenchmarkRunner.run adapters prompt).length) :
    (BenchmarkRunner.run adapters prompt).get ⟨i, hi2⟩ = RunResult.ok g ∧
    0 ≤ g.tokens ∧ 0 ≤ g.latency := by
  refine ⟨?_, Nat.zero_le _, ?_⟩
  · simp only [List.get_eq_getElem] at hok
    simp [BenchmarkRunner.run_eq_map, List.get_eq_getElem,
      BenchmarkRunner.step, hok]
  · rcases hconc with ⟨resp, elapsed, he, hg⟩ | ⟨resp, elapsed, he, hg⟩ <;>
      subst hg
    · exact round2_nonneg elapsed he
    · exact round2_nonneg elapsed he

/-- Witness for C6 on a concrete OpenAI-shaped success. -/
theorem C6_witness :
    (BenchmarkRunner.run [mockOpenAIAdapter] "q").get ⟨0, by decide⟩
        = RunResult.ok (OpenAIAdapter.generate mockVendorResponse (3/2)) ∧
    0 ≤ (OpenAIAdapter.generate mockVendorResponse (3/2)).tokens ∧
    0 ≤ (OpenAIAdapter.generate mockVendorResponse (3/2)).latency :=
  C6_success_metrics [mockOpenAIAdapter] "q" 0 (by decide)
    (OpenAIAdapter.generate mockVendorResponse (3/2)) rfl
    (Or.inl ⟨mockVendorResponse, 3/2, by norm_num, rfl⟩) (by decide)

/-- C7 counterexample: an adapter raising an exception whose string
representation is empty (as Python's bare `raise Exception()`) yields an
ErrorResult with an empty error message, so the message is not always
non-empty. -/
theorem C7_counterexample :
    BenchmarkRunner.run [emptyMsgAdapter] "p" = [RunResult.err "P" ""] ∧
    ("" : String).length = 0 :=
  ⟨rfl, rfl⟩

/-- C7 amended: if the adapter at position `i` raises, the result at
position `i` is an ErrorResult carrying that adapter's provider name and
the string representation of the raised error (which may be empty). -/
theorem C7_amended_error_fields (adapters : List Adapter) (prompt : String)
    (i : ℕ) (hi : i < adapters.length) (e : String)
    (hfail : (adapters.get ⟨i, hi⟩).generate prompt = Except.error e)
    (hi2 : i < (BenchmarkRunner.run adapters prompt).length) :
    (BenchmarkRunner.run adapters prompt).get ⟨i, hi2⟩ =
      RunResult.err (adapters.get ⟨i, hi⟩).name e := by
  simp only [List.get_eq_getElem] at hfail
  simp [BenchmarkRunner.run_eq_map, List.get_eq_getElem,
    BenchmarkRunner.step, hfail]

/-- Witness for the amended C7 on the always-raising mock adapter. -/
theorem C7_witness :
    (BenchmarkRunner.run [mockErrAdapter] "p").get ⟨0, by decide⟩
      = RunResult.err "Broken" "boom" :=
  C7_amended_error_fields [mockErrAdapter] "p" 0 (by decide) "boom" rfl
    (by decide)

/-- C8: with the empty prompt, the run makes exactly one `generate` call
per adapter, each receiving the empty string unvalidated, and still
produces one result per adapter. -/
theorem C8_empty_prompt_passthrough (adapters : List Adapter) :
    (BenchmarkRunner.runLogged adapters "").2 =
      adapters.map (fun a => (a.name, "")) ∧
    (BenchmarkRunner.runLogged adapters "").1 =
      BenchmarkRunner.run adapters "" ∧
    (BenchmarkRunner.run adapters "").length = adapters.length := by
  refine ⟨?_, ?_, BenchmarkRunner.run_length adapters ""⟩
  · simp [BenchmarkRunner.runLogged, BenchmarkRunner.runLoggedAux_eq]
  · simp [BenchmarkRunner.runLogged, BenchmarkRunner.runLoggedAux_eq,
      BenchmarkRunner.run_eq_map]

/-- C9: both adapters report as latency the measured elapsed time rounded
to two decimal digits: the stored latency is `round(elapsed, 2)`, an
integer multiple of 1/100 within 1/200 of the elapsed time. -/
theorem C9_latency_two_decimals (respO : OpenAIResponse)
    (respG : GeminiResponse) (elapsed : ℚ) :
    (OpenAIAdapter.generate respO elapsed).latency = round2 elapsed ∧
    (GeminiAdapter.generate respG elapsed).latency = round2 elapsed ∧
    (∃ n : ℤ, round2 elapsed = (n : ℚ) / 100) ∧
    |round2 elapsed - elapsed| ≤ 1/200 :=
  ⟨rfl, rfl, ⟨roundHalfEven (elapsed * 100), rfl⟩, abs_round2_sub elapsed⟩

/-- C10: when usage metadata is absent the OpenAI adapter returns token
count exactly 0 — it does not use the word-count fallback, which only the
Gemini adapter applies. -/
theorem C10_openai_no_word_fallback (text gtext : String) (e1 e2 : ℚ) :
    (OpenAIAdapter.generate
        { output_text := text, usage := none } e1).tokens = 0 ∧
    (GeminiAdapter.generate
        { text := gtext, usage_metadata := none } e2).tokens
      = pyWordCount gtext ∧
    ¬ ((OpenAIAdapter.generate
          { output_text := "a b", usage := none } e1).tokens
        = pyWordCount "a b") :=
  ⟨rfl, rfl, by
    show ¬ (0 : ℕ) = pyWordCount "a b"
    decide⟩
